import Mathlib

/-!
Verification of the Universe Scoring Engine of the multifactor stock
recommendation app (src/app.py) against its specification.

The Python source is shallowly embedded as follows.

* Machine integers are Nat (mod 2 ^ 32 where the code relies on 32-bit
  wraparound, namely inside MD5) and Int; Python floats are modelled as
  exact rationals, with round(x, 1) modelled by round-half-to-even over
  the rationals (CPython rounds half to even).
* Network and parsing collaborators (the weight-producing model output,
  the listing pages, the quote page) are inputs to the embedded
  functions: each function takes the parse outcome of the external data
  it would have fetched.
* Python exceptions are Except values; an uncaught exception inside
  score_and_recommend surfaces as an error value, which the enclosing
  UI-level handler of the app would display instead of a table.
-/

set_option maxRecDepth 100000

/-! ## MD5 (hashlib.md5), needed by mock_factor_score -/

/-- 2 ^ 32, the modulus for 32-bit words. -/
def M32 : Nat := 4294967296

/-- Rotate a 32-bit word (x < 2 ^ 32) left by n bits, n < 32. -/
def rotl32 (x n : Nat) : Nat := ((x <<< n) % M32) ||| (x >>> (32 - n))

/-- Little-endian byte decomposition of x, n bytes. -/
def leBytes : Nat → Nat → List Nat
  | 0, _ => []
  | n + 1, x => (x % 256) :: leBytes n (x / 256)

/-- Read a little-endian 32-bit word from the first four bytes of a list. -/
def wordAt (l : List Nat) : Nat :=
  l.getD 0 0 + l.getD 1 0 * 256 + l.getD 2 0 * 65536 + l.getD 3 0 * 16777216

/-- The MD5 sine-derived constant table (T table of RFC 1321). -/
def mdK : List Nat :=
  [0xd76aa478, 0xe8c7b756, 0x242070db, 0xc1bdceee,
   0xf57c0faf, 0x4787c62a, 0xa8304613, 0xfd469501,
   0x698098d8, 0x8b44f7af, 0xffff5bb1, 0x895cd7be,
   0x6b901122, 0xfd987193, 0xa679438e, 0x49b40821,
   0xf61e2562, 0xc040b340, 0x265e5a51, 0xe9b6c7aa,
   0xd62f105d, 0x02441453, 0xd8a1e681, 0xe7d3fbc8,
   0x21e1cde6, 0xc33707d6, 0xf4d50d87, 0x455a14ed,
   0xa9e3e905, 0xfcefa3f8, 0x676f02d9, 0x8d2a4c8a,
   0xfffa3942, 0x8771f681, 0x6d9d6122, 0xfde5380c,
   0xa4beea44, 0x4bdecfa9, 0xf6bb4b60, 0xbebfbc70,
   0x289b7ec6, 0xeaa127fa, 0xd4ef3085, 0x04881d05,
   0xd9d4d039, 0xe6db99e5, 0x1fa27cf8, 0xc4ac5665,
   0xf4292244, 0x432aff97, 0xab9423a7, 0xfc93a039,
   0x655b59c3, 0x8f0ccc92, 0xffeff47d, 0x85845dd1,
   0x6fa87e4f, 0xfe2ce6e0, 0xa3014314, 0x4e0811a1,
   0xf7537e82, 0xbd3af235, 0x2ad7d2bb, 0xeb86d391]

/-- The MD5 per-step left-rotation amounts. -/
def mdS : List Nat :=
  [7, 12, 17, 22, 7, 12, 17, 22, 7, 12, 17, 22, 7, 12, 17, 22,
   5, 9, 14, 20, 5, 9, 14, 20, 5, 9, 14, 20, 5, 9, 14, 20,
   4, 11, 16, 23, 4, 11, 16, 23, 4, 11, 16, 23, 4, 11, 16, 23,
   6, 10, 15, 21, 6, 10, 15, 21, 6, 10, 15, 21, 6, 10, 15, 21]

/-- The MD5 round mixing function, selected by the step index. -/
def md5F (i b c d : Nat) : Nat :=
  if i < 16 then (b &&& c) ||| ((0xffffffff ^^^ b) &&& d)
  else if i < 32 then (d &&& b) ||| ((0xffffffff ^^^ d) &&& c)
  else if i < 48 then b ^^^ c ^^^ d
  else c ^^^ (b ||| (0xffffffff ^^^ d))

/-- The MD5 message-word index schedule. -/
def md5G (i : Nat) : Nat :=
  if i < 16 then i
  else if i < 32 then (5 * i + 1) % 16
  else if i < 48 then (3 * i + 5) % 16
  else (7 * i) % 16

/-- One MD5 step on the running state (a, b, c, d). -/
def md5Step (w : Nat → Nat) (st : Nat × Nat × Nat × Nat) (i : Nat) :
    Nat × Nat × Nat × Nat :=
  let f := (md5F i st.2.1 st.2.2.1 st.2.2.2 + st.1 + mdK.getD i 0 + w (md5G i)) % M32
  (st.2.2.2, (st.2.1 + rotl32 f (mdS.getD i 0)) % M32, st.2.1, st.2.2.1)

/-- Process one 64-byte block of the padded message. -/
def md5Block (st : Nat × Nat × Nat × Nat) (block : List Nat) :
    Nat × Nat × Nat × Nat :=
  let w : Nat → Nat := fun g => wordAt (block.drop (4 * g))
  let r := (List.range 64).foldl (md5Step w) st
  ((st.1 + r.1) % M32, (st.2.1 + r.2.1) % M32,
   (st.2.2.1 + r.2.2.1) % M32, (st.2.2.2 + r.2.2.2) % M32)

/-- MD5 padding: append the byte 0x80, zero bytes until the length is
56 mod 64, then the original bit length as a 64-bit little-endian value. -/
def md5pad (msg : List Nat) : List Nat :=
  let padLen := (119 - (msg.length % 64)) % 64
  msg ++ 0x80 :: List.replicate padLen 0 ++
    leBytes 8 ((msg.length * 8) % 18446744073709551616)

/-- Split a list into 64-byte chunks; the fuel argument (any bound on the
number of chunks, here always the list length) keeps the recursion
structural so that the kernel can evaluate it. -/
def chunks64 : Nat → List Nat → List (List Nat)
  | _, [] => []
  | 0, l => [l]
  | fuel + 1, x :: xs => ((x :: xs).take 64) :: chunks64 fuel ((x :: xs).drop 64)

/-- The 16 digest bytes of the MD5 hash of a byte list. -/
def md5Digest (msg : List Nat) : List Nat :=
  let padded := md5pad msg
  let st := (chunks64 padded.length padded).foldl md5Block
    (0x67452301, 0xefcdab89, 0x98badcfe, 0x10325476)
  leBytes 4 st.1 ++ leBytes 4 st.2.1 ++ leBytes 4 st.2.2.1 ++ leBytes 4 st.2.2.2

/-- The digest read as a big-endian integer: the value of
int(hashlib.md5(data).hexdigest(), 16) in the source. -/
def md5Int (msg : List Nat) : Nat :=
  (md5Digest msg).foldl (fun acc b => acc * 256 + b) 0

/-- UTF-8 encoding of one code point. -/
def utf8Bytes (c : Nat) : List Nat :=
  if c < 0x80 then [c]
  else if c < 0x800 then [0xc0 ||| (c >>> 6), 0x80 ||| (c &&& 0x3f)]
  else if c < 0x10000 then
    [0xe0 ||| (c >>> 12), 0x80 ||| ((c >>> 6) &&& 0x3f), 0x80 ||| (c &&& 0x3f)]
  else
    [0xf0 ||| (c >>> 18), 0x80 ||| ((c >>> 12) &&& 0x3f),
     0x80 ||| ((c >>> 6) &&& 0x3f), 0x80 ||| (c &&& 0x3f)]

/-- The UTF-8 bytes of a string, what str.encode() yields in the source. -/
def strBytes (s : String) : List Nat :=
  s.data.foldr (fun ch acc => utf8Bytes ch.toNat ++ acc) []

/-- Sanity check: RFC 1321 test vector for the empty message. -/
example : md5Int [] = 0xd41d8cd98f00b204e9800998ecf8427e := by decide

/-- Sanity check: RFC 1321 test vector for the message abc. -/
example : md5Int [97, 98, 99] = 0x900150983cd24fb0d6963f7d28e17f72 := by decide

/-- Sanity check: RFC 1321 test vector for eight repetitions of the
digits 1234567890, an 80-byte message whose padded form spans two
blocks, exercising the multi-block path. -/
example :
    md5Int (List.foldr (fun _ acc => [49, 50, 51, 52, 53, 54, 55, 56, 57, 48] ++ acc)
      [] (List.range 8)) = 0x57edf4a22be3c955ac49da2e2107b67a := by decide

/-! ## mock_factor_score (src/app.py lines 39 to 41) -/

/-- Embeds mock_factor_score: the MD5 hash of the string
ticker underscore seed, read as an integer, reduced mod 61, plus 40. -/
def mock_factor_score (ticker seed_str : String) : Nat :=
  40 + md5Int (strBytes (ticker ++ "_" ++ seed_str)) % 61

/-- Sanity check: the three factor scores of ticker 005930 agree with
the values hashlib.md5 produces for the source function. -/
example : mock_factor_score "005930" "mom" = 99 ∧
    mock_factor_score "005930" "val" = 86 ∧
    mock_factor_score "005930" "qual" = 49 := by
  refine ⟨by decide, by decide, by decide⟩

/-! ## Rounding -/

/-- Round half to even on rationals, modelling the tie behavior of the
built-in round of CPython; the float arithmetic of the source is
modelled over exact rationals. -/
def roundHalfEven (x : ℚ) : ℤ :=
  let n : ℤ := ⌊x⌋
  let r : ℚ := x - n
  if r < 1 / 2 then n
  else if 1 / 2 < r then n + 1
  else if n % 2 = 0 then n else n + 1

/-- Models round(x, 1) of the source: round to one decimal place. -/
def round1 (x : ℚ) : ℚ := (roundHalfEven (x * 10) : ℚ) / 10

/-- Rounding fixes zero, used wherever the source rounds a zero branch. -/
theorem round1_zero : round1 0 = 0 := by
  norm_num [round1, roundHalfEven]

/-! ## Quote lookup adapter: get_naver_finance_prices (lines 44 to 80)

The function returns the dict with keys current price, target price and
upside percent. Its external input is modelled by QuotePage: either the
whole fetch raises (fail: timeout, network error, anything caught by the
outer except) or a page is parsed, from which the current price text and
the target price text each either yield an integer or are absent or
unparsable (the inner try blocks leave the corresponding price at 0, so
absent and unparsable coincide and are modelled as none). -/

/-- Parse outcome of the quote page for one ticker. -/
inductive QuotePage where
  | fail : QuotePage
  | page (cur : Option Int) (tgt : Option Int) : QuotePage

/-- The quote dict returned by get_naver_finance_prices. -/
structure Quote where
  currentPrice : Int
  targetPrice : Int
  upsidePercent : ℚ
deriving DecidableEq, Repr

/-- Embeds get_naver_finance_prices: prices default to 0, the upside is
computed only when the current price is positive and the target exceeds
it, and is rounded to one decimal; a failed fetch yields the zero quote. -/
def get_naver_finance_prices : QuotePage → Quote
  | .fail => ⟨0, 0, 0⟩
  | .page cur tgt =>
    let current_price := cur.getD 0
    let target_price := tgt.getD 0
    let upside : ℚ :=
      if 0 < current_price ∧ current_price < target_price then
        ((target_price : ℚ) / (current_price : ℚ) - 1) * 100
      else 0
    ⟨current_price, target_price, round1 upside⟩

/-! ## Weight resolution (lines 304 to 314) and application (227 to 229)

json.loads output is modelled by PyJson: either a dict whose values are
scalars (JVal), or any non-dict value (a list, a bare number, null at
top level), on which the dict method get raises AttributeError. JVal
distinguishes numbers (ints and floats), booleans (which Python divides
like numbers since bool subclasses int), and the non-numeric values
(strings, null, nested containers) whose division by 100.0 raises
TypeError. Entry lists stand for parsed dicts, so keys are unique. -/

/-- A scalar-classified JSON value appearing under a key of the parsed
weights dict. -/
inductive JVal where
  | num (q : ℚ) : JVal
  | str (s : String) : JVal
  | jbool (b : Bool) : JVal
  | jnull : JVal
  | nested : JVal
deriving DecidableEq

/-- A parsed JSON document as the weights payload: a dict or not. -/
inductive PyJson where
  | obj (entries : List (String × JVal)) : PyJson
  | nonObj : PyJson
deriving DecidableEq

/-- The Python exceptions that the embedded pipeline can raise. -/
inductive PyErr where
  | keyError : PyErr
  | attrError : PyErr
  | typeError : PyErr
deriving DecidableEq

/-- The fallback weights dict of line 305. -/
def defaultWeights : PyJson :=
  .obj [("Momentum", .num (333 / 10)), ("Value", .num (333 / 10)),
        ("Quality", .num (167 / 5))]

/-- Embeds lines 304 to 314: the raw input is none when the regex finds
no fenced json block, some error when json.loads raises, and some ok j
when json.loads returns j. The parsed value is kept as is (the st.info
call may still raise inside the same try, but the assignment to weights
has already happened and the except handler only shows a warning). -/
def resolve_weights : Option (Except Unit PyJson) → PyJson
  | some (.ok j) => j
  | some (.error _) => defaultWeights
  | none => defaultWeights

/-- Embeds weights.get(key, dflt) / 100.0 of lines 227 to 229: get on a
non-dict raises AttributeError; a present non-numeric value raises
TypeError at the division; a missing key falls back to the per-key
default; booleans divide as 1 or 0. -/
def dictGetDiv100 (w : PyJson) (key : String) (dflt : ℚ) : Except PyErr ℚ :=
  match w with
  | .nonObj => .error .attrError
  | .obj entries =>
    match entries.lookup key with
    | none => .ok (dflt / 100)
    | some (.num q) => .ok (q / 100)
    | some (.jbool b) => .ok ((if b then 1 else 0) / 100)
    | some (.str _) => .error .typeError
    | some .jnull => .error .typeError
    | some .nested => .error .typeError

/-! ## Universe builder: get_naver_top_cap (153 to 185),
get_naver_etf_top_cap (187 to 208), fetch_universe (210 to 222)

A listing page is modelled by its parse outcome: none when the page has
no table of class type_2 (the loop breaks), or the list of (ticker,
name) pairs extractable from its rows (rows with at most two cells or
without a link contribute nothing and are omitted from the model input). -/

/-- A universe candidate: ticker and display name. -/
abbrev Cand := String × String

/-- The inner row loop of get_naver_top_cap: append candidates one at a
time, stopping as soon as the accumulated data reaches the limit. -/
def appendUpTo (limit : Nat) (acc : List Cand) : List Cand → List Cand
  | [] => acc
  | c :: rest =>
    let acc2 := acc ++ [c]
    if limit ≤ acc2.length then acc2 else appendUpTo limit acc2 rest

/-- The page loop of get_naver_top_cap: while fewer than limit
candidates are collected and pages remain, consume the next page; a page
without a table breaks the loop. -/
def topCapLoop (limit : Nat) : List (Option (List Cand)) → List Cand → List Cand
  | [], acc => acc
  | p :: rest, acc =>
    if acc.length < limit then
      match p with
      | none => acc
      | some items => topCapLoop limit rest (appendUpTo limit acc items)
    else acc

/-- Embeds get_naver_top_cap for one market segment: paginate over at
most five pages, collecting up to limit candidates. -/
def get_naver_top_cap (pages : List (Option (List Cand))) (limit : Nat) : List Cand :=
  topCapLoop limit (pages.take 5) []

/-- One item of the ETF JSON payload. -/
structure EtfItem where
  itemcode : String
  itemname : String
  marketSum : Int
deriving DecidableEq

/-- Sort key relation for the ETF list: descending market cap; ties keep
their payload order, as the stable sorted builtin of Python does. -/
def etfDesc (a b : EtfItem) : Prop := b.marketSum ≤ a.marketSum

instance : DecidableRel etfDesc :=
  fun a b => inferInstanceAs (Decidable (b.marketSum ≤ a.marketSum))

/-- Embeds get_naver_etf_top_cap: on any fetch or parse failure the data
list stays empty; otherwise sort by market cap descending (stable) and
keep the first limit items. -/
def get_naver_etf_top_cap (items : Option (List EtfItem)) (limit : Nat) : List Cand :=
  match items with
  | none => []
  | some l => ((List.insertionSort etfDesc l).take limit).map
      (fun it => (it.itemcode, it.itemname))

/-- The market segment selected in the UI. -/
inductive Market where
  | all : Market
  | kospi : Market
  | kosdaq : Market
  | etf : Market
deriving DecidableEq

/-- The external collaborators of one pipeline run: the parsed listing
pages of the two stock segments, the ETF payload, and the quote page of
each ticker. -/
structure Env where
  kospiPages : List (Option (List Cand))
  kosdaqPages : List (Option (List Cand))
  etfItems : Option (List EtfItem)
  quote : String → QuotePage

/-- Embeds fetch_universe: one listing per named segment; for the whole
market, fetch limit candidates from each of the two segments,
concatenate, and truncate the concatenation to limit. -/
def fetch_universe (market : Market) (limit : Nat) (env : Env) : List Cand :=
  match market with
  | .etf => get_naver_etf_top_cap env.etfItems limit
  | .kospi => get_naver_top_cap env.kospiPages limit
  | .kosdaq => get_naver_top_cap env.kosdaqPages limit
  | .all =>
    (get_naver_top_cap env.kospiPages limit ++
      get_naver_top_cap env.kosdaqPages limit).take limit

/-! ## Scoring pipeline: score_and_recommend (lines 224 to 279) -/

/-- One row of the result table, with the display columns: the two price
columns show the price only when it is positive and a dash otherwise
(modelled as none). -/
structure Row where
  ticker : String
  name : String
  curDisplay : Option Int
  tgtDisplay : Option Int
  upside : ℚ
  upsideScore : ℚ
  aiScore : ℚ
  finalScore : ℚ
deriving DecidableEq, Repr

/-- The loop body of score_and_recommend for one instrument: three
mocked factor scores, the quote, the saturated upside bonus, the
weighted composite, and the final score, each rounded to one decimal. -/
def scoreRow (w_m w_v w_q : ℚ) (ticker name : String) (qp : QuotePage) : Row :=
  let prices := get_naver_finance_prices qp
  let mom : ℚ := mock_factor_score ticker "mom"
  let valf : ℚ := mock_factor_score ticker "val"
  let qualf : ℚ := mock_factor_score ticker "qual"
  let upside := prices.upsidePercent
  let upside_score := round1 (if 0 < upside then min 15 (upside / 30 * 15) else 0)
  let ai_score := round1 (mom * w_m + valf * w_v + qualf * w_q)
  let final_score := round1 (ai_score + upside_score)
  ⟨ticker, name,
   if 0 < prices.currentPrice then some prices.currentPrice else none,
   if 0 < prices.targetPrice then some prices.targetPrice else none,
   upside, upside_score, ai_score, final_score⟩

/-- Sort key relation of the post-loop sort: descending final score,
with ties kept in their original relative order by the stable sort. -/
def rowGE (a b : Row) : Prop := b.finalScore ≤ a.finalScore

instance : DecidableRel rowGE :=
  fun a b => inferInstanceAs (Decidable (b.finalScore ≤ a.finalScore))

instance : IsTotal Row rowGE :=
  ⟨fun a b => le_total b.finalScore a.finalScore⟩

instance : IsTrans Row rowGE :=
  ⟨fun _ _ _ h1 h2 => le_trans h2 h1⟩

/-- Embeds df.sort_values(by final score, ascending False) on the frame
built from the collected rows. Two facts about the libraries are part of
this model. First, on an empty row list pd.DataFrame gives a frame with
no columns at all, so sort_values raises KeyError for the missing sort
column. Second, for ascending False, nargsort in pandas/core/sorting.py
reverses the key column, takes an ascending argsort of the reversed
column, and reverses the resulting indexer again (the double reversal
introduced for issue 6399), so whenever the underlying argsort is
stable the descending sort keeps runs of equal keys in their original
relative order; the default numpy quicksort runs its stable
insertion-sort specialization below its 16-element partitioning
threshold, which covers every frame this file evaluates concretely. The
model is therefore a stable descending sort. For frames of 16 rows or
more the default quicksort partitions and guarantees no tie order (the
pandas documentation lists mergesort and stable as the only stable
kinds); no theorem below depends on the tie order of such frames. -/
def pdSortFinalDesc (rows : List Row) : Except PyErr (List Row) :=
  match rows with
  | [] => .error .keyError
  | a :: t => .ok (List.insertionSort rowGE (a :: t))

/-- Embeds reset_index(drop True) followed by df.index = df.index + 1:
the rank column holds 1 through N in table order. -/
def attachRanks (l : List Row) : List (Nat × Row) :=
  (List.range' 1 l.length).zip l

/-- Embeds score_and_recommend: resolve the three weights (an exception
there propagates), build the universe, score each instrument in order,
then sort descending by final score and attach ranks. -/
def score_and_recommend (w : PyJson) (market : Market) (limit : Nat)
    (env : Env) : Except PyErr (List (Nat × Row)) :=
  match dictGetDiv100 w "Momentum" (333 / 10) with
  | .error e => .error e
  | .ok w_m =>
    match dictGetDiv100 w "Value" (333 / 10) with
    | .error e => .error e
    | .ok w_v =>
      match dictGetDiv100 w "Quality" (167 / 5) with
      | .error e => .error e
      | .ok w_q =>
        let rows := (fetch_universe market limit env).map
          (fun c => scoreRow w_m w_v w_q c.1 c.2 (env.quote c.1))
        match pdSortFinalDesc rows with
        | .error e => .error e
        | .ok sorted => .ok (attachRanks sorted)

/-! ## Concrete fixtures used by witnesses and counterexamples -/

/-- A parsed weights dict with all three weights zero: every composite
score is zero, forcing a fully tied table. -/
def w0 : PyJson :=
  .obj [("Momentum", .num 0), ("Value", .num 0), ("Quality", .num 0)]

/-- The valid weights dict of the spec example: Momentum 30, Value 20,
Quality 50. -/
def wGood : PyJson :=
  .obj [("Momentum", .num 30), ("Value", .num 20), ("Quality", .num 50)]

/-- An environment whose first listing page holds the two instruments A
and B, and whose quote fetches all fail. -/
def envAB : Env :=
  ⟨[some [("A", "a"), ("B", "b")]], [none], none, fun _ => .fail⟩

/-- An environment in which no listing page parses: the universe comes
out empty. -/
def envEmpty : Env := ⟨[none], [none], none, fun _ => .fail⟩

/-- The row the pipeline produces for instrument A under zero weights
and a failed quote fetch: every score field is zero. -/
def rA0 : Row := ⟨"A", "a", none, none, 0, 0, 0, 0⟩

/-- The row the pipeline produces for instrument B under zero weights
and a failed quote fetch. -/
def rB0 : Row := ⟨"B", "b", none, none, 0, 0, 0, 0⟩

/-- An environment with the single instrument 005930 whose quote page
parses to current price 50000 and target price 65000. -/
def env1 : Env :=
  ⟨[some [("005930", "SamsungElec")]], [none], none,
    fun _ => .page (some 50000) (some 65000)⟩

/-- The row the pipeline produces for 005930 under the wGood weights. -/
def r1 : Row :=
  scoreRow (30 / 100) (20 / 100) (50 / 100) "005930" "SamsungElec"
    (.page (some 50000) (some 65000))

/-! ## Helper lemmas -/

/-- Dissects a successful pipeline run: the three weights resolved, and
the table is the rank-attached reverse of the stable ascending sort of
the scored rows. -/
theorem run_ok_elim {w : PyJson} {market : Market} {limit : Nat} {env : Env}
    {tbl : List (Nat × Row)}
    (h : score_and_recommend w market limit env = .ok tbl) :
    ∃ w_m w_v w_q,
      dictGetDiv100 w "Momentum" (333 / 10) = .ok w_m ∧
      dictGetDiv100 w "Value" (333 / 10) = .ok w_v ∧
      dictGetDiv100 w "Quality" (167 / 5) = .ok w_q ∧
      tbl = attachRanks (List.insertionSort rowGE
        ((fetch_universe market limit env).map
          (fun c => scoreRow w_m w_v w_q c.1 c.2 (env.quote c.1)))) := by
  simp only [score_and_recommend] at h
  cases hM : dictGetDiv100 w "Momentum" (333 / 10) with
  | error e => rw [hM] at h; simp at h
  | ok w_m =>
  rw [hM] at h
  cases hV : dictGetDiv100 w "Value" (333 / 10) with
  | error e => rw [hV] at h; simp at h
  | ok w_v =>
  rw [hV] at h
  cases hQ : dictGetDiv100 w "Quality" (167 / 5) with
  | error e => rw [hQ] at h; simp at h
  | ok w_q =>
  rw [hQ] at h
  simp only [] at h
  refine ⟨w_m, w_v, w_q, rfl, rfl, rfl, ?_⟩
  cases hrows : (fetch_universe market limit env).map
      (fun c => scoreRow w_m w_v w_q c.1 c.2 (env.quote c.1)) with
  | nil => rw [hrows] at h; simp [pdSortFinalDesc] at h
  | cons a t =>
    rw [hrows] at h
    simp only [pdSortFinalDesc] at h
    cases h
    rfl

/-- A pairwise relation that only inspects the row survives attaching
rank indices by zipping. -/
theorem pairwise_zip_snd (S : Row → Row → Prop) :
    ∀ (ns : List Nat) (l : List Row), l.Pairwise S →
      (ns.zip l).Pairwise (fun x y => S x.2 y.2) := by
  intro ns
  induction ns with
  | nil => intro l h; simp
  | cons n ns ih =>
    intro l h
    cases l with
    | nil => simp
    | cons r t =>
      rw [List.zip_cons_cons]
      rcases List.pairwise_cons.mp h with ⟨hr, ht⟩
      refine List.Pairwise.cons ?_ (ih t ht)
      rintro ⟨i, r2⟩ hy
      exact hr r2 (List.of_mem_zip hy).2

/-- Attaching ranks preserves descending order of final scores. -/
theorem attachRanks_pairwise (l : List Row)
    (h : l.Pairwise (fun a b => b.finalScore ≤ a.finalScore)) :
    (attachRanks l).Pairwise
      (fun x y : Nat × Row => y.2.finalScore ≤ x.2.finalScore) :=
  pairwise_zip_snd (fun a b => b.finalScore ≤ a.finalScore) _ l h

/-- The rank column of the attached table is exactly 1 through N. -/
theorem attachRanks_ranks (l : List Row) :
    (attachRanks l).map Prod.fst = List.range' 1 (attachRanks l).length := by
  have hlen : (attachRanks l).length = l.length := by
    simp [attachRanks, List.length_zip, List.length_range']
  rw [hlen]
  rw [attachRanks, List.map_fst_zip]
  rw [List.length_range']

/-- The concrete tied run: zero weights over the universe A, B with all
quote fetches failing; both rows score zero and the pipeline returns
them in insertion order with ranks 1 and 2. -/
theorem run0 : score_and_recommend w0 .kospi 30 envAB = .ok [(1, rA0), (2, rB0)] := by
  have hM : dictGetDiv100 w0 "Momentum" (333 / 10) = .ok 0 := by
    simp [dictGetDiv100, w0, List.lookup]
  have hV : dictGetDiv100 w0 "Value" (333 / 10) = .ok 0 := by
    simp [dictGetDiv100, w0, List.lookup]
  have hQ : dictGetDiv100 w0 "Quality" (167 / 5) = .ok 0 := by
    simp [dictGetDiv100, w0, List.lookup]
  have hA : scoreRow 0 0 0 "A" "a" (envAB.quote "A") = rA0 := by
    simp [envAB, scoreRow, get_naver_finance_prices, round1_zero, rA0]
  have hB : scoreRow 0 0 0 "B" "b" (envAB.quote "B") = rB0 := by
    simp [envAB, scoreRow, get_naver_finance_prices, round1_zero, rB0]
  have hU : fetch_universe .kospi 30 envAB = [("A", "a"), ("B", "b")] := rfl
  simp only [score_and_recommend, hM, hV, hQ, hU, List.map]
  rw [hA, hB]
  simp [pdSortFinalDesc, List.insertionSort, List.orderedInsert, rowGE, rA0, rB0,
    attachRanks, List.range']

/-- The concrete single-instrument run under the wGood weights. -/
theorem run1 : score_and_recommend wGood .kospi 30 env1 = .ok [(1, r1)] := by
  have hM : dictGetDiv100 wGood "Momentum" (333 / 10) = .ok (30 / 100) := by
    simp [dictGetDiv100, wGood, List.lookup]
  have hV : dictGetDiv100 wGood "Value" (333 / 10) = .ok (20 / 100) := by
    simp [dictGetDiv100, wGood, List.lookup]
  have hQ : dictGetDiv100 wGood "Quality" (167 / 5) = .ok (50 / 100) := by
    simp [dictGetDiv100, wGood, List.lookup]
  have hU : fetch_universe .kospi 30 env1 = [("005930", "SamsungElec")] := rfl
  simp only [score_and_recommend, hM, hV, hQ, hU, List.map]
  simp [pdSortFinalDesc, List.insertionSort, List.orderedInsert, attachRanks,
    List.range', r1, env1]

/-- The inner row loop never pushes the collected data past the limit
once it starts below it, mirroring the break after each append. -/
theorem appendUpTo_length_le (limit : Nat) :
    ∀ (items : List Cand) (acc : List Cand), acc.length < limit →
      (appendUpTo limit acc items).length ≤ limit := by
  intro items
  induction items with
  | nil => intro acc h; exact le_of_lt h
  | cons c rest ih =>
    intro acc h
    rw [appendUpTo]
    by_cases hstop : limit ≤ (acc ++ [c]).length
    · rw [if_pos hstop]
      simp only [List.length_append, List.length_singleton]
      omega
    · rw [if_neg hstop]
      exact ih (acc ++ [c]) (lt_of_not_le hstop)

/-- The page loop preserves the limit bound on the collected data. -/
theorem topCapLoop_length_le (limit : Nat) :
    ∀ (pages : List (Option (List Cand))) (acc : List Cand),
      acc.length ≤ limit → (topCapLoop limit pages acc).length ≤ limit := by
  intro pages
  induction pages with
  | nil => intro acc h; exact h
  | cons p rest ih =>
    intro acc h
    simp only [topCapLoop]
    by_cases hgo : acc.length < limit
    · rw [if_pos hgo]
      cases p with
      | none => exact h
      | some items => exact ih _ (appendUpTo_length_le limit items acc hgo)
    · rw [if_neg hgo]
      exact h

/-- The listing fetch of one segment returns at most limit candidates,
the contract the spec states for every segment of the universe builder. -/
theorem get_naver_top_cap_length_le (pages : List (Option (List Cand)))
    (limit : Nat) : (get_naver_top_cap pages limit).length ≤ limit :=
  topCapLoop_length_le limit (pages.take 5) [] (Nat.zero_le limit)

/-! ## Claims -/

/-- C1: for every instrument processed by the scoring pipeline, the
final score equals round1 of the composite factor score plus the upside
bonus, where the composite is round1 of the weight-blended mocked factor
scores (each weight divided by 100) and the bonus is round1 of the
saturated upside when the upside is positive and 0 otherwise. -/
theorem C1_final_score_formula (w : PyJson) (market : Market) (limit : Nat)
    (env : Env) (tbl : List (Nat × Row)) (w_m w_v w_q : ℚ)
    (hM : dictGetDiv100 w "Momentum" (333 / 10) = .ok w_m)
    (hV : dictGetDiv100 w "Value" (333 / 10) = .ok w_v)
    (hQ : dictGetDiv100 w "Quality" (167 / 5) = .ok w_q)
    (h : score_and_recommend w market limit env = .ok tbl) :
    ∀ pr ∈ tbl,
      pr.2.finalScore =
        round1 (round1 ((mock_factor_score pr.2.ticker "mom" : ℚ) * w_m +
            (mock_factor_score pr.2.ticker "val" : ℚ) * w_v +
            (mock_factor_score pr.2.ticker "qual" : ℚ) * w_q) +
          (if 0 < (get_naver_finance_prices (env.quote pr.2.ticker)).upsidePercent then
            round1 (min 15
              ((get_naver_finance_prices (env.quote pr.2.ticker)).upsidePercent / 30 * 15))
          else 0)) := by
  obtain ⟨w_m2, w_v2, w_q2, hM2, hV2, hQ2, htbl⟩ := run_ok_elim h
  rw [hM2] at hM; rw [hV2] at hV; rw [hQ2] at hQ
  cases hM; cases hV; cases hQ
  subst htbl
  rintro ⟨i, r⟩ hpr
  simp only [attachRanks] at hpr
  have hr := (List.of_mem_zip hpr).2
  rw [(List.perm_insertionSort rowGE _).mem_iff] at hr
  obtain ⟨c, _, hc⟩ := List.mem_map.mp hr
  subst hc
  simp only [scoreRow]
  by_cases h0 : 0 < (get_naver_finance_prices (env.quote c.1)).upsidePercent
  · simp [h0]
  · simp [h0, round1_zero]

/-- C1 witness: the formula instantiated on the concrete single
instrument run under the wGood weights. -/
theorem C1_final_score_formula_witness :
    r1.finalScore =
      round1 (round1 ((mock_factor_score "005930" "mom" : ℚ) * (30 / 100) +
          (mock_factor_score "005930" "val" : ℚ) * (20 / 100) +
          (mock_factor_score "005930" "qual" : ℚ) * (50 / 100)) +
        (if 0 < (get_naver_finance_prices
              (.page (some 50000) (some 65000))).upsidePercent then
          round1 (min 15 ((get_naver_finance_prices
            (.page (some 50000) (some 65000))).upsidePercent / 30 * 15))
        else 0)) := by
  have h := C1_final_score_formula wGood .kospi 30 env1 [(1, r1)]
    (30 / 100) (20 / 100) (50 / 100)
    (by simp [dictGetDiv100, wGood, List.lookup])
    (by simp [dictGetDiv100, wGood, List.lookup])
    (by simp [dictGetDiv100, wGood, List.lookup])
    run1
  exact h (1, r1) (by simp)

/-- C2: every table returned by the scoring pipeline is sorted with
non-increasing final scores, and its rank column is exactly the integers
1 through N in order, with no gaps or repeats. -/
theorem C2_table_sorted_and_ranked (w : PyJson) (market : Market) (limit : Nat)
    (env : Env) (tbl : List (Nat × Row))
    (h : score_and_recommend w market limit env = .ok tbl) :
    tbl.Pairwise (fun x y : Nat × Row => y.2.finalScore ≤ x.2.finalScore) ∧
      tbl.map Prod.fst = List.range' 1 tbl.length := by
  obtain ⟨w_m, w_v, w_q, hM, hV, hQ, htbl⟩ := run_ok_elim h
  subst htbl
  constructor
  · apply attachRanks_pairwise
    exact List.sorted_insertionSort rowGE _
  · exact attachRanks_ranks _

/-- C2 witness: the ordering and rank properties on the concrete
two-instrument run. -/
theorem C2_table_sorted_and_ranked_witness :
    ([(1, rA0), (2, rB0)] : List (Nat × Row)).Pairwise
      (fun x y => y.2.finalScore ≤ x.2.finalScore) ∧
    ([(1, rA0), (2, rB0)] : List (Nat × Row)).map Prod.fst =
      List.range' 1 ([(1, rA0), (2, rB0)] : List (Nat × Row)).length :=
  C2_table_sorted_and_ranked w0 .kospi 30 envAB [(1, rA0), (2, rB0)] run0

/-- C3: contrary to the claim, an empty universe does not yield an
empty valid table: pd.DataFrame of an empty row list has no columns, so
the post-loop sort raises KeyError for the missing final score column
and the pipeline run surfaces an error instead of a table. -/
theorem C3_empty_universe_errors :
    score_and_recommend wGood .kospi 30 envEmpty = .error .keyError := by
  have hM : dictGetDiv100 wGood "Momentum" (333 / 10) = .ok (30 / 100) := by
    simp [dictGetDiv100, wGood, List.lookup]
  have hV : dictGetDiv100 wGood "Value" (333 / 10) = .ok (20 / 100) := by
    simp [dictGetDiv100, wGood, List.lookup]
  have hQ : dictGetDiv100 wGood "Quality" (167 / 5) = .ok (50 / 100) := by
    simp [dictGetDiv100, wGood, List.lookup]
  have hU : fetch_universe .kospi 30 envEmpty = [] := rfl
  simp only [score_and_recommend, hM, hV, hQ, hU, List.map]
  simp [pdSortFinalDesc]

/-- C4 counterexample: a parseable weights block with missing keys is
not replaced by the default vector. The resolver keeps the parsed
object, and at application the present key contributes its own value (50
becomes the weight 0.5), so neither the resolved object nor the
effective vector equals the default. -/
theorem C4_weights_cex :
    resolve_weights (some (.ok (.obj [("Momentum", .num 50)]))) ≠ defaultWeights ∧
    dictGetDiv100 (.obj [("Momentum", .num 50)]) "Momentum" (333 / 10) = .ok (1 / 2) ∧
    dictGetDiv100 (.obj [("Momentum", .num 50)]) "Value" (333 / 10) = .ok (333 / 1000) := by
  refine ⟨?_, ?_, ?_⟩
  · simp [resolve_weights, defaultWeights]
  · simp [dictGetDiv100, List.lookup]
    norm_num
  · simp [dictGetDiv100, List.lookup]
    norm_num

/-- C4 amended: the resolver returns the default vector exactly when
the input is absent or unparsable, and never raises; a parsed value is
kept verbatim, a missing key falls back to its own per-key default at
application, and a non-numeric or null value, or a non-dict payload,
raises at application instead of being defaulted. -/
theorem C4_weights_amended :
    resolve_weights none = defaultWeights ∧
    (∀ e : Unit, resolve_weights (some (.error e)) = defaultWeights) ∧
    (∀ j : PyJson, resolve_weights (some (.ok j)) = j) ∧
    (∀ (entries : List (String × JVal)) (key : String) (d : ℚ),
      entries.lookup key = none → dictGetDiv100 (.obj entries) key d = .ok (d / 100)) ∧
    (∀ (entries : List (String × JVal)) (key : String) (d : ℚ) (s : String),
      entries.lookup key = some (.str s) →
        dictGetDiv100 (.obj entries) key d = .error .typeError) ∧
    (∀ (entries : List (String × JVal)) (key : String) (d : ℚ),
      entries.lookup key = some .jnull →
        dictGetDiv100 (.obj entries) key d = .error .typeError) ∧
    (∀ (key : String) (d : ℚ), dictGetDiv100 .nonObj key d = .error .attrError) := by
  refine ⟨rfl, fun e => rfl, fun j => rfl, ?_, ?_, ?_, fun k d => rfl⟩
  · intro entries key d h
    simp [dictGetDiv100, h]
  · intro entries key d s h
    simp [dictGetDiv100, h]
  · intro entries key d h
    simp [dictGetDiv100, h]

/-- C4 witness: the fallback on absent input, and the per-key default
for a missing Momentum key of a parsed dict holding only Value. -/
theorem C4_weights_amended_witness :
    resolve_weights none = defaultWeights ∧
    dictGetDiv100 (.obj [("Value", .num 20)]) "Momentum" (333 / 10) =
      .ok ((333 / 10) / 100) :=
  ⟨C4_weights_amended.1,
    C4_weights_amended.2.2.2.1 [("Value", .num 20)] "Momentum" (333 / 10)
      (by simp [List.lookup])⟩

/-- C5: the upside percent equals round1 of
(target divided by current, minus 1, times 100) exactly when the current
price is positive and the target exceeds it, and is exactly 0 in every
other case, including a failed fetch; positivity of the upside forces
both conditions. -/
theorem C5_upside_percent_formula (cur tgt : Option Int) :
    ((0 < cur.getD 0 ∧ cur.getD 0 < tgt.getD 0) →
      (get_naver_finance_prices (.page cur tgt)).upsidePercent =
        round1 (((tgt.getD 0 : ℚ) / (cur.getD 0 : ℚ) - 1) * 100)) ∧
    (¬(0 < cur.getD 0 ∧ cur.getD 0 < tgt.getD 0) →
      (get_naver_finance_prices (.page cur tgt)).upsidePercent = 0) ∧
    (get_naver_finance_prices .fail).upsidePercent = 0 ∧
    (0 < (get_naver_finance_prices (.page cur tgt)).upsidePercent →
      0 < cur.getD 0 ∧ cur.getD 0 < tgt.getD 0) := by
  refine ⟨?_, ?_, rfl, ?_⟩
  · intro h
    simp [get_naver_finance_prices, h]
  · intro h
    simp [get_naver_finance_prices, h, round1_zero]
  · intro h
    by_contra hc
    have h0 : (get_naver_finance_prices (.page cur tgt)).upsidePercent = 0 := by
      simp [get_naver_finance_prices, hc, round1_zero]
    rw [h0] at h
    exact lt_irrefl 0 h

/-- C5 witness: at current price 50000 and target price 65000 the
condition holds and the formula applies (its value is 30 percent). -/
theorem C5_upside_percent_formula_witness :
    (0 < ((some (50000 : Int)).getD 0) ∧
      ((some (50000 : Int)).getD 0) < ((some (65000 : Int)).getD 0)) ∧
    (get_naver_finance_prices (.page (some 50000) (some 65000))).upsidePercent =
      round1 ((((some (65000 : Int)).getD 0 : ℚ) /
        ((some (50000 : Int)).getD 0 : ℚ) - 1) * 100) :=
  ⟨by decide, (C5_upside_percent_formula (some 50000) (some 65000)).1 (by decide)⟩

/-- C6: the quote lookup is total by construction (it returns a Quote
for every parse outcome), and on a failed fetch, as well as on a page
with no parseable price at all, it returns the canonical zero quote. -/
theorem C6_quote_lookup_total :
    get_naver_finance_prices .fail = ⟨0, 0, 0⟩ ∧
    get_naver_finance_prices (.page none none) = ⟨0, 0, 0⟩ := by
  refine ⟨rfl, ?_⟩
  simp [get_naver_finance_prices, round1_zero]

/-- C7: the factor score is exactly the MD5 hash of the ticker joined
to the seed by an underscore, read as an integer, reduced mod 61, plus
40; being a function of its arguments it is deterministic, and its value
always lies between 40 and 100. -/
theorem C7_factor_score_hash_and_range (ticker seed_str : String) :
    mock_factor_score ticker seed_str =
      40 + md5Int (strBytes (ticker ++ "_" ++ seed_str)) % 61 ∧
    40 ≤ mock_factor_score ticker seed_str ∧
    mock_factor_score ticker seed_str ≤ 100 := by
  refine ⟨rfl, Nat.le_add_right 40 _, ?_⟩
  have h : md5Int (strBytes (ticker ++ "_" ++ seed_str)) % 61 < 61 :=
    Nat.mod_lt _ (by norm_num)
  simp only [mock_factor_score]
  omega

/-- C9: for the whole-market segment the universe builder fetches limit
candidates from each of the two segment collaborators, concatenates
them, truncates the concatenation to limit, and therefore returns at
most limit candidates in total, never two times limit. -/
theorem C9_all_segment_truncates_concat (env : Env) (limit : Nat) :
    fetch_universe .all limit env =
      (get_naver_top_cap env.kospiPages limit ++
        get_naver_top_cap env.kosdaqPages limit).take limit ∧
    (fetch_universe .all limit env).length ≤ limit := by
  refine ⟨rfl, ?_⟩
  simp only [fetch_universe, List.length_take]
  exact inf_le_left

/-- C10: a quote page with only one parseable price keeps that price
and leaves the other at 0 with upside 0: partial quote data is
preserved, not replaced by the zero quote wholesale. -/
theorem C10_partial_quote_kept (c t : Int) :
    get_naver_finance_prices (.page (some c) none) = ⟨c, 0, 0⟩ ∧
    get_naver_finance_prices (.page none (some t)) = ⟨0, t, 0⟩ := by
  constructor
  · have h : ¬(0 < c ∧ c < 0) := by omega
    simp [get_naver_finance_prices, h, round1_zero]
  · have h : ¬((0 : Int) < 0 ∧ (0 : Int) < t) := by omega
    simp [get_naver_finance_prices, h, round1_zero]
